import Mathlib

/-!
Verification of the two command-line utilities of this repository:
scripts/diagnose_flash_attn.py (the runtime Inspector) and
scripts/install_prebuilt_flash_attn.py (the wheel Resolver & Installer).

The scripts are shallowly embedded: each Python function becomes a Lean
function over an explicit environment record that captures the ambient
state the script reads (import outcomes, subprocess outcomes, HTTP
outcomes, interpreter/platform identity).  Python exceptions become
values of the PyError type carried in Except; printed lines are
accumulated in lists; exit codes are returned.
-/

/-- Model of a Python exception: its class name and its message
(str(exc)). -/
structure PyError where
  name : String
  msg : String
deriving DecidableEq

/-- Python s.startswith(pre), over the character lists of the two
strings. -/
def startsWithL : List Char → List Char → Bool
  | _, [] => true
  | [], _ :: _ => false
  | c :: s, d :: pre => c = d && startsWithL s pre

/-- Python needle in hay (substring containment), over character
lists. -/
def hasSub (needle : List Char) : List Char → Bool
  | [] => needle.isEmpty
  | c :: t => startsWithL (c :: t) needle || hasSub needle t

/-- Python needle in hay for strings. -/
def strContains (needle hay : String) : Bool :=
  hasSub needle.data hay.data

/-- Characters stripped by Python str.strip() (ASCII whitespace; the
rare further Unicode whitespace Python also strips does not occur in
this development). -/
def isSpaceChar (c : Char) : Bool :=
  c = ' ' || c = '\t' || c = '\n' || c = '\r' || c = '\x0b' || c = '\x0c'

/-- Python str.strip(). -/
def pyStrip (s : String) : String :=
  String.mk (((s.data.dropWhile isSpaceChar).reverse.dropWhile isSpaceChar).reverse)

/-- Split a character list at newline characters. -/
def splitNlAux (cur : List Char) : List Char → List (List Char)
  | [] => [cur.reverse]
  | c :: t => if c = '\n' then cur.reverse :: splitNlAux [] t else splitNlAux (c :: cur) t

/-- Python str.splitlines() for strings whose line terminators are
newline characters: the empty string gives an empty list, and a
trailing terminator does not contribute a final empty line. -/
def pySplitlines (s : String) : List String :=
  if s.data = [] then []
  else
    let parts := (splitNlAux [] s.data).map String.mk
    if s.data.getLast? = some '\n' then parts.dropLast else parts

/-- Python sys.version.replace(chr(10), ' '). -/
def pyReplaceNl (s : String) : String :=
  String.mk (s.data.map (fun c => if c = '\n' then ' ' else c))

/-- ASCII lower-casing of one character (Python str.lower() restricted
to ASCII, which covers every machine name this code compares with). -/
def lowerChar (c : Char) : Char :=
  if 'A' ≤ c ∧ c ≤ 'Z' then Char.ofNat (c.toNat + 32) else c

/-- Python str.lower(). -/
def pyLower (s : String) : String :=
  String.mk (s.data.map lowerChar)

deriving instance DecidableEq for Except

namespace Diagnose

/-- Outcome of one subprocess.check_output invocation in
scripts/diagnose_flash_attn.py: the captured text on success, or the
raised exception. -/
inductive CmdResult where
  | success (output : String)
  | failure (err : PyError)
deriving DecidableEq

/-- The attributes of the torch module that the Inspector reads:
torch.__version__, the display form of torch.version.cuda, and
torch.cuda.is_available().  -/
structure TorchMod where
  version : String
  cuda : String
  cudaAvailable : Bool
deriving DecidableEq

/-- Ambient environment of one run of scripts/diagnose_flash_attn.py:
interpreter identity, the CUDA_HOME variable, the outcomes of the two
probe subprocesses, and the outcomes of the three module imports
attempted by _try_import (the flash_attn import also carries the
module's optional __version__ attribute). -/
structure Env where
  pythonVersion : String
  executable : String
  sysPlatform : String
  cudaHome : Option String
  nvcc : CmdResult
  smi : CmdResult
  torch : Except PyError TorchMod
  flash : Except PyError (Option String)
  ext : Except PyError Unit
deriving DecidableEq

/-- Result of one run: the lines printed before termination, and either
the returned exit code or an uncaught exception. -/
structure Result where
  lines : List String
  outcome : Except PyError Nat
deriving DecidableEq

/-- Embedding of _cmd_output: the stripped output on success, the
bracketed unavailable string on any exception. -/
def _cmd_output (r : CmdResult) : String :=
  match r with
  | .success out => pyStrip out
  | .failure e => "<unavailable: " ++ e.name ++ ": " ++ e.msg ++ ">"

/-- Embedding of _print_runtime: the lines it prints, paired with the
exception it raises, if any (indexing [-1] into the split nvcc output
and [0] into the split nvidia-smi output raises IndexError when the
list is empty). -/
def _print_runtime (env : Env) : List String × Option PyError :=
  let base := ["python: " ++ pyReplaceNl env.pythonVersion,
               "executable: " ++ env.executable,
               "platform: " ++ env.sysPlatform,
               "CUDA_HOME: " ++ env.cudaHome.getD "<unset>"]
  match (pySplitlines (_cmd_output env.nvcc)).getLast? with
  | none => (base, some ⟨"IndexError", "list index out of range"⟩)
  | some nv =>
    match (pySplitlines (_cmd_output env.smi)).head? with
    | none => (base ++ ["nvcc: " ++ nv], some ⟨"IndexError", "list index out of range"⟩)
    | some sm => (base ++ ["nvcc: " ++ nv, "nvidia-smi: " ++ sm], none)

/-- Embedding of main of scripts/diagnose_flash_attn.py. -/
def main (env : Env) : Result :=
  match _print_runtime env with
  | (ls, some e) => ⟨ls, .error e⟩
  | (ls, none) =>
    match env.torch with
    | .error e => ⟨ls ++ ["torch import failed: " ++ e.name ++ ": " ++ e.msg], .ok 1⟩
    | .ok tm =>
      let ls := ls ++ ["torch: " ++ tm.version,
                       "torch.version.cuda: " ++ tm.cuda,
                       "torch.cuda.is_available: " ++ (if tm.cudaAvailable then "True" else "False")]
      match env.flash with
      | .error e => ⟨ls ++ ["flash_attn import failed: " ++ e.name ++ ": " ++ e.msg,
                            "Diagnosis: flash-attn is missing or not loadable in this environment."], .ok 2⟩
      | .ok fv =>
        let ls := ls ++ ["flash_attn: " ++ fv.getD "<unknown>"]
        match env.ext with
        | .error e =>
          let ls := ls ++ ["flash_attn_2_cuda import failed: " ++ e.name ++ ": " ++ e.msg]
          let ls := if strContains "undefined symbol" e.msg then
              ls ++ ["Diagnosis: ABI mismatch. flash-attn was built against a different PyTorch/CUDA runtime than the current one (torch=" ++ tm.version ++ ", cuda=" ++ tm.cuda ++ ").",
                     "Fix: reinstall flash-attn in this exact env after torch is finalized.",
                     "Command: uv run python scripts/install_prebuilt_flash_attn.py"]
            else ls
          ⟨ls, .ok 3⟩
        | .ok _ => ⟨ls ++ ["flash_attn_2_cuda import succeeded.",
                           "flash-attn looks ABI-compatible with this runtime."], .ok 0⟩

end Diagnose

namespace Installer

def GITHUB_REPO : String := "Dao-AILab/flash-attention"

def DEFAULT_RELEASE_TAG : String := "v2.8.3"

/-- The RuntimeInfo dataclass of
scripts/install_prebuilt_flash_attn.py. -/
structure RuntimeInfo where
  torch_version : String
  torch_major_minor : String
  torch_cuda : String
  python_tag : String
  cxx11abi : String
  platform_tag : String
deriving DecidableEq

/-- The attributes of the torch module that _gather_runtime reads:
torch.__version__, torch.version.cuda (None or a string), and the
boolean torch._C._GLIBCXX_USE_CXX11_ABI. -/
structure TorchModule where
  version : String
  cuda : Option String
  cxx11abi : Bool
deriving DecidableEq

/-- Parsed command-line options of the Installer. -/
structure Args where
  release_tag : Option String
  print_url : Bool
  installer : String
deriving DecidableEq

/-- Outcome of the GitHub latest-release query in
_get_latest_release_tag: a JSON payload whose optional tag_name field
is given, or a raised exception (network error, timeout, malformed
body). -/
inductive LatestTagResult where
  | response (tagName : Option String)
  | failure (err : PyError)
deriving DecidableEq

/-- Outcome of the HEAD request of _wheel_exists: success, an HTTPError
with its status code, or any other transport exception. -/
inductive HeadResult where
  | success
  | httpError (code : Nat)
  | failure (err : PyError)
deriving DecidableEq

/-- Ambient environment of one run of
scripts/install_prebuilt_flash_attn.py. -/
structure Env where
  torch : Option TorchModule
  sysPlatform : String
  machine : String
  pyMajor : Nat
  pyMinor : Nat
  latest : LatestTagResult
  head : HeadResult
  uvOnPath : Bool
  sysExecutable : String
  installerReturn : Int
deriving DecidableEq

/-- Result of one run: printed lines, the returned exit code or the
uncaught exception, and whether the installer subprocess was
invoked. -/
structure Result where
  lines : List String
  outcome : Except PyError Int
  installRan : Bool
deriving DecidableEq

/-- Embedding of _parse_torch_major_minor.  The source matches the
anchored regular expression (digits)(dot)(digits) against the version
string and returns group1 ++ "." ++ group2; here the match is rendered
by its meaning: group1 is the maximal leading digit run, the next
character must be a dot, and group2 is the maximal digit run after it,
both groups nonempty.  Failure raises RuntimeError. -/
def _parse_torch_major_minor (torch_version : String) : Except PyError String :=
  let group1 := torch_version.data.takeWhile Char.isDigit
  let afterDigits := torch_version.data.dropWhile Char.isDigit
  let group2 := (afterDigits.drop 1).takeWhile Char.isDigit
  if group1 ≠ [] ∧ afterDigits.head? = some '.' ∧ group2 ≠ [] then
    .ok (String.mk group1 ++ "." ++ String.mk group2)
  else
    .error ⟨"RuntimeError", "Unable to parse torch version: " ++ torch_version⟩

/-- Embedding of _platform_tag over the two platform identity strings it
reads (sys.platform and platform.machine()). -/
def _platform_tag (sysPlatform : String) (machine : String) : Except PyError String :=
  if startsWithL sysPlatform.data ("linux".data) = false then
    .error ⟨"RuntimeError", "Prebuilt flash-attn wheel install is supported on Linux only."⟩
  else
    if pyLower machine = "x86_64" ∨ pyLower machine = "amd64" then .ok "linux_x86_64"
    else if pyLower machine = "aarch64" ∨ pyLower machine = "arm64" then .ok "linux_aarch64"
    else .error ⟨"RuntimeError", "Unsupported machine architecture: " ++ pyLower machine⟩

/-- Embedding of _get_latest_release_tag: a network/parse failure
propagates; a payload lacking tag_name (absent or falsy, that is,
empty) raises RuntimeError; otherwise the tag is returned. -/
def _get_latest_release_tag (env : Env) : Except PyError String :=
  match env.latest with
  | .failure e => .error e
  | .response none => .error ⟨"RuntimeError", "GitHub API response did not include tag_name."⟩
  | .response (some t) =>
    if t = "" then .error ⟨"RuntimeError", "GitHub API response did not include tag_name."⟩
    else .ok t

/-- Embedding of _gather_runtime.  The source's local torch_cuda
(torch.version.cuda or the empty string), python_tag and cxx11abi
variables are inlined. -/
def _gather_runtime (env : Env) : Except PyError RuntimeInfo :=
  match env.torch with
  | none => .error ⟨"RuntimeError", "torch must be installed in this environment before installing flash-attn."⟩
  | some torch =>
    match _parse_torch_major_minor torch.version with
    | .error e => .error e
    | .ok torch_major_minor =>
      if torch.cuda.getD "" = "" then
        .error ⟨"RuntimeError", "CUDA runtime not detected in torch (torch.version.cuda is empty)."⟩
      else if startsWithL (torch.cuda.getD "").data ("12.".data) = false then
        .error ⟨"RuntimeError", "Unsupported torch CUDA runtime " ++ torch.cuda.getD "" ++ ". This script currently targets flash-attn cu12 wheels."⟩
      else
        match _platform_tag env.sysPlatform env.machine with
        | .error e => .error e
        | .ok pt =>
          .ok ⟨torch.version, torch_major_minor, torch.cuda.getD "",
               "cp" ++ toString env.pyMajor ++ toString env.pyMinor,
               (if torch.cxx11abi then "TRUE" else "FALSE"), pt⟩

/-- Embedding of _wheel_url.  The local variable version of the source
(release_tag.lstrip of the letter v) is inlined, and the f-string is
written as explicit concatenation; note that the cu12 component of the
filename is a literal of the source, independent of the fingerprint's
torch_cuda field. -/
def _wheel_url (release_tag : String) (runtime : RuntimeInfo) : String :=
  "https://github.com/" ++ GITHUB_REPO ++ "/releases/download/" ++ release_tag ++ "/" ++
    ("flash_attn-" ++ String.mk (release_tag.data.dropWhile (fun c => c = 'v')) ++
      "%2Bcu12torch" ++ runtime.torch_major_minor ++
      "cxx11abi" ++ runtime.cxx11abi ++ "-" ++ runtime.python_tag ++ "-" ++
      runtime.python_tag ++ "-" ++ runtime.platform_tag ++ ".whl")

/-- Embedding of _wheel_exists: True on success, False on HTTPError 404,
re-raise on any other HTTPError, propagate any other exception. -/
def _wheel_exists (env : Env) : Except PyError Bool :=
  match env.head with
  | .success => .ok true
  | .httpError code =>
    if code = 404 then .ok false
    else .error ⟨"HTTPError", "HTTP Error " ++ toString code⟩
  | .failure e => .error e

/-- Embedding of _install_cmd. -/
def _install_cmd (installer : String) (uvOnPath : Bool) (sysExecutable : String) (wheel_url : String) : List String :=
  let inst := if installer = "auto" then (if uvOnPath then "uv" else "pip") else installer
  if inst = "uv" then ["uv", "pip", "install", "--force-reinstall", "--no-deps", wheel_url]
  else [sysExecutable, "-m", "pip", "install", "--force-reinstall", "--no-deps", wheel_url]

/-- The fallback notice printed by main when the latest-release query
fails. -/
def fallbackNotice (e : PyError) : String :=
  "Could not resolve latest release tag (" ++ e.name ++ ": " ++ e.msg ++ "). Falling back to " ++ DEFAULT_RELEASE_TAG ++ "."

/-- The release-tag resolution step of main (its lines 161 to 171): the
resolved tag together with the lines this step prints. -/
def resolveReleaseTag (argTag : Option String) (env : Env) : String × List String :=
  match argTag with
  | some t => (t, [])
  | none =>
    match _get_latest_release_tag env with
    | .ok t => (t, ["Using latest release tag: " ++ t])
    | .error e => (DEFAULT_RELEASE_TAG, [fallbackNotice e])

/-- Embedding of main of scripts/install_prebuilt_flash_attn.py. -/
def main (args : Args) (env : Env) : Result :=
  match _gather_runtime env with
  | .error e => ⟨[], .error e, false⟩
  | .ok runtime =>
    let tagStep := resolveReleaseTag args.release_tag env
    let wheel_url := _wheel_url tagStep.1 runtime
    let ls := tagStep.2 ++
      ["torch=" ++ runtime.torch_version ++ " cuda=" ++ runtime.torch_cuda ++ " python=" ++ runtime.python_tag,
       "Resolved wheel: " ++ wheel_url]
    match _wheel_exists env with
    | .error e => ⟨ls, .error e, false⟩
    | .ok false =>
      ⟨ls ++ ["No matching prebuilt wheel found for this runtime.",
              "Try a different --release-tag, or align python/torch to a runtime with published flash-attn wheels."],
       .ok 2, false⟩
    | .ok true =>
      if args.print_url then ⟨ls, .ok 0, false⟩
      else
        let cmd := _install_cmd args.installer env.uvOnPath env.sysExecutable wheel_url
        ⟨ls ++ ["Installing via: " ++ String.intercalate " " cmd], .ok env.installerReturn, true⟩

/-- Major component of a version string: the characters before the
first dot. -/
def cudaMajor (s : String) : String :=
  String.mk (s.data.takeWhile (fun c => c != '.'))

/-- Well-formedness of a fingerprint's filename-relevant fields, true
of every fingerprint _gather_runtime produces: the major.minor
component is digits around a dot (so contains no letter c), the ABI
flag is TRUE or FALSE and the interpreter tag is cp followed by digits
(so neither contains a dash), and the platform tag is one of the two
linux tags (so contains no dot). -/
def WFInfo (fp : RuntimeInfo) : Prop :=
  (∀ c ∈ fp.torch_major_minor.data, c ≠ 'c') ∧
  (∀ c ∈ fp.cxx11abi.data, c ≠ '-') ∧
  (∀ c ∈ fp.python_tag.data, c ≠ '-') ∧
  (∀ c ∈ fp.platform_tag.data, c ≠ '.')

/-- Character list of the part of a wheel URL that precedes the
fingerprint-dependent fields. -/
def urlPreData (tag : String) : List Char :=
  "https://github.com/Dao-AILab/flash-attention/releases/download/".data ++ tag.data ++
    "/flash_attn-".data ++ tag.data.dropWhile (fun c => c = 'v') ++ "%2Bcu12torch".data

/-- Character list of the fingerprint-dependent tail of a wheel URL. -/
def suffixData (fp : RuntimeInfo) : List Char :=
  fp.torch_major_minor.data ++
    'c' :: ("xx11abi".data ++ (fp.cxx11abi.data ++
      '-' :: (fp.python_tag.data ++
        '-' :: (fp.python_tag.data ++
          '-' :: (fp.platform_tag.data ++ ['.', 'w', 'h', 'l'])))))


end Installer

/-- An environment in which both probe commands and all three imports
succeed but the nvcc probe prints nothing. -/
def envEmptyProbe : Diagnose.Env :=
  ⟨"3.10.14 (main, Apr 2024)", "/usr/bin/python3", "linux", none,
   .success "", .success "535.104.05",
   .ok ⟨"2.4.0", "12.1", true⟩, .ok (some "2.8.3"), .ok ()⟩

/-- An environment in which the native extension import fails with an
unresolved-symbol message. -/
def envAbiMismatch : Diagnose.Env :=
  ⟨"3.10.14 (main, Apr 2024)", "/usr/bin/python3", "linux", some "/usr/local/cuda",
   .success "nvcc: NVIDIA (R) Cuda compiler driver\nCuda compilation tools, release 12.1, V12.1.105",
   .success "535.104.05",
   .ok ⟨"2.4.0", "12.1", true⟩, .ok (some "2.8.3"),
   .error ⟨"ImportError", "flash_attn_2_cuda.so: undefined symbol: _ZN2at4_ops5zeros4callE"⟩⟩

/-- A torch module fingerprint source used by the installer witnesses. -/
def torchExample : Installer.TorchModule := ⟨"2.4.0", some "12.1", true⟩

/-- The fingerprint _gather_runtime produces from torchExample on
linux x86_64 under CPython 3.10. -/
def rtExample : Installer.RuntimeInfo := ⟨"2.4.0", "2.4", "12.1", "cp310", "TRUE", "linux_x86_64"⟩

/-- An installer environment whose HEAD request returns 404. -/
def env404 : Installer.Env :=
  ⟨some torchExample, "linux", "x86_64", 3, 10, .response (some "v2.8.3"), .httpError 404, true, "/usr/bin/python3", 0⟩

/-- An installer environment whose latest-release query raises. -/
def envNetDown : Installer.Env :=
  ⟨some torchExample, "linux", "x86_64", 3, 10, .failure ⟨"URLError", "timed out"⟩, .success, true, "/usr/bin/python3", 0⟩

/-- An installer environment whose torch reports a CUDA 11 runtime. -/
def envCuda11 : Installer.Env :=
  ⟨some ⟨"2.4.0", some "11.8", true⟩, "linux", "x86_64", 3, 10, .response (some "v2.8.3"), .success, true, "/usr/bin/python3", 0⟩

/-- Installer invocation with no options. -/
def argsNone : Installer.Args := ⟨none, false, "auto"⟩

theorem strDataAppend (a b : String) : (a ++ b).data = a.data ++ b.data := rfl

theorem dataMk (l : List Char) : (String.mk l).data = l := rfl

theorem stringExt {s t : String} (h : s.data = t.data) : s = t := by
  cases s; cases t; cases h; rfl

theorem appCancelL {α : Type} : ∀ (a b c : List α), a ++ b = a ++ c → b = c := by
  intro a
  induction a with
  | nil => intro b c h; simpa using h
  | cons x t ih => intro b c h; exact ih b c (by simpa using h)

theorem bAllTakeWhile (p : Char → Bool) : ∀ (l : List Char), ∀ c ∈ l.takeWhile p, p c = true := by
  intro l
  induction l with
  | nil => intro c hc; simp [List.takeWhile] at hc
  | cons x t ih =>
    intro c hc
    cases hx : p x with
    | false => simp [List.takeWhile, hx] at hc
    | true =>
      simp only [List.takeWhile, hx, List.mem_cons] at hc
      rcases hc with hc | hc
      · exact hc ▸ hx
      · exact ih c hc

theorem takeWhileSep (p : Char → Bool) (a : List Char) (c : Char) (r : List Char)
    (ha : ∀ x ∈ a, p x = true) (hc : p c = false) :
    (a ++ c :: r).takeWhile p = a := by
  induction a with
  | nil => simp [List.takeWhile, hc]
  | cons x t ih =>
    have hx : p x = true := ha x (by simp)
    simp only [List.cons_append, List.takeWhile, hx, List.append_eq]
    rw [ih (fun y hy => ha y (by simp [hy]))]

theorem dropWhileSep (p : Char → Bool) (a : List Char) (c : Char) (r : List Char)
    (ha : ∀ x ∈ a, p x = true) (hc : p c = false) :
    (a ++ c :: r).dropWhile p = c :: r := by
  induction a with
  | nil => simp [List.dropWhile, hc]
  | cons x t ih =>
    have hx : p x = true := ha x (by simp)
    simp only [List.cons_append, List.dropWhile, hx, List.append_eq]
    exact ih (fun y hy => ha y (by simp [hy]))

theorem takeWhileAllHead (p : Char → Bool) (b r : List Char)
    (hb : ∀ x ∈ b, p x = true) (hr : ∀ c, r.head? = some c → p c = false) :
    (b ++ r).takeWhile p = b := by
  induction b with
  | nil =>
    simp only [List.nil_append]
    cases r with
    | nil => rfl
    | cons c t => simp [List.takeWhile, hr c rfl]
  | cons x t ih =>
    have hx : p x = true := hb x (by simp)
    simp only [List.cons_append, List.takeWhile, hx, List.append_eq]
    rw [ih (fun y hy => hb y (by simp [hy]))]

theorem sepInj (p : Char → Bool) {c : Char} {a b r s : List Char}
    (ha : ∀ x ∈ a, p x = true) (hb : ∀ x ∈ b, p x = true) (hc : p c = false)
    (h : a ++ c :: r = b ++ c :: s) : a = b ∧ r = s := by
  have h1 : a = b := by
    rw [← takeWhileSep p a c r ha hc, ← takeWhileSep p b c s hb hc, h]
  subst h1
  refine ⟨rfl, ?_⟩
  have h2 := appCancelL a (c :: r) (c :: s) h
  injection h2

theorem wheel_url_data (tag : String) (fp : Installer.RuntimeInfo) :
    (Installer._wheel_url tag fp).data = Installer.urlPreData tag ++ Installer.suffixData fp := by
  simp only [Installer._wheel_url, Installer.GITHUB_REPO, Installer.urlPreData,
    Installer.suffixData, strDataAppend, dataMk, List.append_assoc]
  rfl

/-- Claim C1 (counterexample): for the fingerprint of the claim, the
URL built by _wheel_url is not the URL the claim names (whose filename
embeds the full accelerator-toolkit version cu12.1). -/
theorem wheel_url_cu12_minor_counterexample :
    Installer._wheel_url "v2.8.3" ⟨"2.4.0", "2.4", "12.1", "cp310", "TRUE", "linux_x86_64"⟩ ≠
      "https://github.com/Dao-AILab/flash-attention/releases/download/v2.8.3/flash_attn-2.8.3%2Bcu12.1torch2.4cxx11abiTRUE-cp310-cp310-linux_x86_64.whl" := by
  decide

/-- Claim C1 (amended): for release tag v2.8.3 and the claim's
fingerprint (any torch_version and torch_cuda, since the URL does not
embed them), _wheel_url returns the URL whose filename embeds the
literal major-only component cu12. -/
theorem wheel_url_v283_value (tv tc : String) :
    Installer._wheel_url "v2.8.3" ⟨tv, "2.4", tc, "cp310", "TRUE", "linux_x86_64"⟩ =
      "https://github.com/Dao-AILab/flash-attention/releases/download/v2.8.3/flash_attn-2.8.3%2Bcu12torch2.4cxx11abiTRUE-cp310-cp310-linux_x86_64.whl" := rfl

/-- Claim C2 (counterexample): two fingerprints that differ in
torch_cuda (and so in at least one field) are mapped by _wheel_url to
the same URL. -/
theorem wheel_url_cuda_alias_counterexample :
    (⟨"2.4.0", "2.4", "12.1", "cp310", "TRUE", "linux_x86_64"⟩ : Installer.RuntimeInfo) ≠
        ⟨"2.4.0", "2.4", "12.4", "cp310", "TRUE", "linux_x86_64"⟩ ∧
      Installer._wheel_url "v2.8.3" ⟨"2.4.0", "2.4", "12.1", "cp310", "TRUE", "linux_x86_64"⟩ =
        Installer._wheel_url "v2.8.3" ⟨"2.4.0", "2.4", "12.4", "cp310", "TRUE", "linux_x86_64"⟩ := by
  exact ⟨by decide, rfl⟩

/-- Claim C3 (code evaluated at the failing input): in an environment
where every import succeeds and both probe commands succeed but the
nvcc probe's output is empty, the Inspector raises an uncaught
IndexError while printing the runtime report, instead of terminating
through the documented 0/1/2/3 taxonomy. -/
theorem diagnose_empty_probe_crash :
    (Diagnose.main envEmptyProbe).outcome = .error ⟨"IndexError", "list index out of range"⟩ := rfl

/-- Claim C9: when an explicit release tag is supplied, the resolved
tag is that tag verbatim (with nothing printed by the resolution step),
and the whole run of the Installer is unchanged under any two behaviors
of the release-index endpoint, so the index is never consulted. -/
theorem installer_explicit_tag_no_query (t : String) (pu : Bool) (inst : String)
    (torch : Option Installer.TorchModule) (sysP machine : String) (pyMa pyMi : Nat)
    (lat1 lat2 : Installer.LatestTagResult) (head : Installer.HeadResult)
    (uv : Bool) (exe : String) (code : Int) :
    Installer.main ⟨some t, pu, inst⟩ ⟨torch, sysP, machine, pyMa, pyMi, lat1, head, uv, exe, code⟩ =
        Installer.main ⟨some t, pu, inst⟩ ⟨torch, sysP, machine, pyMa, pyMi, lat2, head, uv, exe, code⟩ ∧
      Installer.resolveReleaseTag (some t) ⟨torch, sysP, machine, pyMa, pyMi, lat1, head, uv, exe, code⟩ = (t, []) := by
  exact ⟨rfl, rfl⟩

theorem bneOfNe {ch : Char} {l : List Char} (h : ∀ c ∈ l, c ≠ ch) :
    ∀ c ∈ l, (c != ch) = true := by
  intro c hc; simpa using h c hc

/-- Claim C2 (amended): for a fixed release tag, _wheel_url tells apart
any two well-formed fingerprints that differ in at least one of the
four fields the filename embeds (torch_major_minor, python_tag,
cxx11abi, platform_tag); the torch_version and torch_cuda fields do not
appear in the URL, so fingerprints differing only there alias to the
same URL. -/
theorem wheel_url_discriminates (tag : String) (fp1 fp2 : Installer.RuntimeInfo)
    (h1 : Installer.WFInfo fp1) (h2 : Installer.WFInfo fp2)
    (hdiff : fp1.torch_major_minor ≠ fp2.torch_major_minor ∨
      fp1.python_tag ≠ fp2.python_tag ∨
      fp1.cxx11abi ≠ fp2.cxx11abi ∨
      fp1.platform_tag ≠ fp2.platform_tag) :
    Installer._wheel_url tag fp1 ≠ Installer._wheel_url tag fp2 := by
  intro heq
  have hd := congrArg String.data heq
  rw [wheel_url_data, wheel_url_data] at hd
  have hs := appCancelL _ _ _ hd
  unfold Installer.suffixData at hs
  obtain ⟨hmm, hs1⟩ := sepInj (fun x => x != 'c') (bneOfNe h1.1) (bneOfNe h2.1) (by decide) hs
  have hs2 := appCancelL _ _ _ hs1
  obtain ⟨habi, hs3⟩ := sepInj (fun x => x != '-') (bneOfNe h1.2.1) (bneOfNe h2.2.1) (by decide) hs2
  obtain ⟨hpy, hs4⟩ := sepInj (fun x => x != '-') (bneOfNe h1.2.2.1) (bneOfNe h2.2.2.1) (by decide) hs3
  obtain ⟨_, hs5⟩ := sepInj (fun x => x != '-') (bneOfNe h1.2.2.1) (bneOfNe h2.2.2.1) (by decide) hs4
  obtain ⟨hplat, _⟩ := sepInj (fun x => x != '.') (bneOfNe h1.2.2.2) (bneOfNe h2.2.2.2) (by decide) hs5
  rcases hdiff with h | h | h | h
  · exact h (stringExt hmm)
  · exact h (stringExt hpy)
  · exact h (stringExt habi)
  · exact h (stringExt hplat)

/-- Claim C2 (witness): the amended theorem applied to two concrete
well-formed fingerprints differing in torch_major_minor. -/
theorem wheel_url_discriminates_witness :
    Installer._wheel_url "v2.8.3" ⟨"2.4.0", "2.4", "12.1", "cp310", "TRUE", "linux_x86_64"⟩ ≠
      Installer._wheel_url "v2.8.3" ⟨"2.3.1", "2.3", "12.1", "cp310", "TRUE", "linux_x86_64"⟩ :=
  wheel_url_discriminates "v2.8.3" _ _ (by refine ⟨?_, ?_, ?_, ?_⟩ <;> decide)
    (by refine ⟨?_, ?_, ?_, ?_⟩ <;> decide) (Or.inl (by decide))

theorem parse_ok_shape (v s : String) (h : Installer._parse_torch_major_minor v = .ok s) :
    ∃ a b r, v.data = a ++ '.' :: (b ++ r) ∧ a ≠ [] ∧ b ≠ [] ∧
      (∀ c ∈ a, c.isDigit = true) ∧ (∀ c ∈ b, c.isDigit = true) ∧
      s = String.mk a ++ "." ++ String.mk b := by
  simp only [Installer._parse_torch_major_minor] at h
  split at h
  case isTrue hcond =>
    obtain ⟨c1, c2, c3⟩ := hcond
    obtain ⟨t, hdw⟩ : ∃ t, v.data.dropWhile Char.isDigit = '.' :: t := by
      cases hh : v.data.dropWhile Char.isDigit with
      | nil => rw [hh] at c2; simp at c2
      | cons c tt =>
        rw [hh] at c2
        simp only [List.head?_cons, Option.some.injEq] at c2
        subst c2
        exact ⟨tt, rfl⟩
    rw [hdw] at c3 h
    simp only [List.drop_succ_cons, List.drop_zero] at c3 h
    injection h with hs
    refine ⟨v.data.takeWhile Char.isDigit, t.takeWhile Char.isDigit, t.dropWhile Char.isDigit,
      ?_, c1, c3, bAllTakeWhile _ _, bAllTakeWhile _ _, hs.symm⟩
    calc v.data = v.data.takeWhile Char.isDigit ++ v.data.dropWhile Char.isDigit :=
          (List.takeWhile_append_dropWhile _ _).symm
      _ = v.data.takeWhile Char.isDigit ++ ('.' :: t) := by rw [hdw]
      _ = v.data.takeWhile Char.isDigit ++ ('.' :: (t.takeWhile Char.isDigit ++ t.dropWhile Char.isDigit)) := by
          rw [List.takeWhile_append_dropWhile]
  case isFalse => simp at h

/-- Claim C4: for every version string that begins with a
digits-dot-digits pattern (the two digit runs maximal, as the greedy
anchored regex reads them), the parser returns the string made of the
two runs joined by a dot; for every other string it returns a
RuntimeError instead of a value. -/
theorem parse_torch_major_minor_spec :
    (∀ (v : String) (a b r : List Char),
      v.data = a ++ '.' :: (b ++ r) → a ≠ [] → b ≠ [] →
      (∀ c ∈ a, c.isDigit = true) → (∀ c ∈ b, c.isDigit = true) →
      (∀ c, r.head? = some c → c.isDigit = false) →
      Installer._parse_torch_major_minor v = .ok (String.mk a ++ "." ++ String.mk b)) ∧
    (∀ v : String,
      (¬ ∃ a b r, v.data = a ++ '.' :: (b ++ r) ∧ a ≠ [] ∧ b ≠ [] ∧
        (∀ c ∈ a, c.isDigit = true) ∧ (∀ c ∈ b, c.isDigit = true)) →
      ∃ e, Installer._parse_torch_major_minor v = .error e) := by
  constructor
  · intro v a b r hv ha0 hb0 had hbd hr
    have htw : v.data.takeWhile Char.isDigit = a := by
      rw [hv]; exact takeWhileSep Char.isDigit a '.' (b ++ r) had (by decide)
    have hdw : v.data.dropWhile Char.isDigit = '.' :: (b ++ r) := by
      rw [hv]; exact dropWhileSep Char.isDigit a '.' (b ++ r) had (by decide)
    have htb : (b ++ r).takeWhile Char.isDigit = b := takeWhileAllHead Char.isDigit b r hbd hr
    simp only [Installer._parse_torch_major_minor, htw, hdw, List.drop_succ_cons,
      List.drop_zero, htb]
    split
    · rfl
    · next hcond => exact absurd ⟨ha0, rfl, hb0⟩ hcond
  · intro v hno
    cases hp : Installer._parse_torch_major_minor v with
    | ok s =>
      obtain ⟨a, b, r, hv, ha0, hb0, had, hbd, _⟩ := parse_ok_shape v s hp
      exact absurd ⟨a, b, r, hv, ha0, hb0, had, hbd⟩ hno
    | error e => exact ⟨e, rfl⟩

/-- Claim C4 (witness): the parser theorem applied to the version
string 2.4.1 (giving 2.4) and to the pattern-free string nightly
(giving a RuntimeError). -/
theorem parse_torch_major_minor_spec_witness :
    Installer._parse_torch_major_minor "2.4.1" = .ok "2.4" ∧
      ∃ e, Installer._parse_torch_major_minor "nightly" = .error e := by
  constructor
  · exact parse_torch_major_minor_spec.1 "2.4.1" ['2'] ['4'] ['.', '1'] (by decide) (by decide)
      (by decide) (by decide) (by decide) (by intro c hc; injection hc with h; subst h; decide)
  · refine parse_torch_major_minor_spec.2 "nightly" ?_
    rintro ⟨a, b, r, heq, ha0, hb0, hda, hdb⟩
    have hlit : "nightly".data = 'n' :: "ightly".data := rfl
    rw [hlit] at heq
    cases a with
    | nil =>
      simp only [List.nil_append] at heq
      injection heq with h1 _
      exact absurd h1 (by decide)
    | cons c a' =>
      simp only [List.cons_append] at heq
      injection heq with h1 _
      have hcd := hda c (by simp)
      rw [← h1] at hcd
      exact absurd hcd (by decide)

/-- Claim C5: whenever the Inspector reaches the step that loads the
native extension (the runtime report printed without incident, torch
and flash_attn both imported) and that load fails, the exit code is 3;
and if the failure message contains the substring undefined symbol, the
ABI-mismatch diagnosis and the remediation command are among the
printed lines. -/
theorem diagnose_ext_failure_exit3 (env : Diagnose.Env) (tm : Diagnose.TorchMod)
    (fv : Option String) (e : PyError)
    (hpr : (Diagnose._print_runtime env).2 = none)
    (ht : env.torch = .ok tm) (hf : env.flash = .ok fv) (he : env.ext = .error e) :
    (Diagnose.main env).outcome = .ok 3 ∧
      (strContains "undefined symbol" e.msg = true →
        ("Diagnosis: ABI mismatch. flash-attn was built against a different PyTorch/CUDA runtime than the current one (torch=" ++ tm.version ++ ", cuda=" ++ tm.cuda ++ ").") ∈ (Diagnose.main env).lines ∧
        "Command: uv run python scripts/install_prebuilt_flash_attn.py" ∈ (Diagnose.main env).lines) := by
  rcases hpp : Diagnose._print_runtime env with ⟨ls, o⟩
  rw [hpp] at hpr
  simp only at hpr
  subst hpr
  simp only [Diagnose.main, hpp, ht, hf, he]
  constructor
  · trivial
  · intro hsub
    simp only [hsub, if_true]
    constructor
    · simp
    · simp

/-- Claim C5 (witness): the theorem applied to a concrete environment
whose extension import fails with an unresolved-symbol message. -/
theorem diagnose_ext_failure_exit3_witness :
    (Diagnose.main envAbiMismatch).outcome = .ok 3 ∧
      "Command: uv run python scripts/install_prebuilt_flash_attn.py" ∈ (Diagnose.main envAbiMismatch).lines := by
  have h := diagnose_ext_failure_exit3 envAbiMismatch ⟨"2.4.0", "12.1", true⟩ (some "2.8.3")
    ⟨"ImportError", "flash_attn_2_cuda.so: undefined symbol: _ZN2at4_ops5zeros4callE"⟩
    rfl rfl rfl rfl
  exact ⟨h.1, (h.2 (by decide)).2⟩

theorem startsWithLPrefix : ∀ (pre l : List Char), startsWithL l pre = true → ∃ t, l = pre ++ t := by
  intro pre
  induction pre with
  | nil => intro l _; exact ⟨l, rfl⟩
  | cons d pre' ih =>
    intro l h
    cases l with
    | nil => simp [startsWithL] at h
    | cons c s =>
      simp only [startsWithL, Bool.and_eq_true, decide_eq_true_eq] at h
      obtain ⟨t, ht⟩ := ih s h.2
      exact ⟨t, by simp [ht, h.1]⟩

/-- Claim C6: once the fingerprint has been gathered, a 404 answer to
the HEAD existence check makes the Installer return exit code 2 with no
installer subprocess; an HTTPError with any other code is re-raised,
and any other transport exception propagates, in both cases without
reaching the installer subprocess. -/
theorem installer_missing_wheel_behavior (args : Installer.Args) (env : Installer.Env)
    (rt : Installer.RuntimeInfo) (hg : Installer._gather_runtime env = .ok rt) :
    (env.head = .httpError 404 →
      (Installer.main args env).outcome = .ok 2 ∧ (Installer.main args env).installRan = false) ∧
    (∀ c, env.head = .httpError c → c ≠ 404 →
      (Installer.main args env).outcome = .error ⟨"HTTPError", "HTTP Error " ++ toString c⟩ ∧
        (Installer.main args env).installRan = false) ∧
    (∀ e, env.head = .failure e →
      (Installer.main args env).outcome = .error e ∧ (Installer.main args env).installRan = false) := by
  refine ⟨?_, ?_, ?_⟩
  · intro h404
    have hex : Installer._wheel_exists env = .ok false := by
      simp [Installer._wheel_exists, h404]
    simp [Installer.main, hg, hex]
  · intro c hc hne
    have hex : Installer._wheel_exists env = .error ⟨"HTTPError", "HTTP Error " ++ toString c⟩ := by
      simp [Installer._wheel_exists, hc, hne]
    simp [Installer.main, hg, hex]
  · intro e he
    have hex : Installer._wheel_exists env = .error e := by
      simp [Installer._wheel_exists, he]
    simp [Installer.main, hg, hex]

/-- Claim C6 (witness): the theorem applied to a concrete environment
whose HEAD request answers 404. -/
theorem installer_missing_wheel_behavior_witness :
    (Installer.main argsNone env404).outcome = .ok 2 ∧
      (Installer.main argsNone env404).installRan = false :=
  (installer_missing_wheel_behavior argsNone env404 rtExample rfl).1 rfl

/-- Claim C7: when no release tag is supplied and the latest-release
query raises, the resolution step yields the hardcoded default v2.8.3
together with the fallback notice, the notice is among the printed
lines of the full run, and the run proceeds to build and print the
wheel URL for the default tag (the query failure does not abort the
process). -/
theorem installer_release_tag_fallback (args : Installer.Args) (env : Installer.Env)
    (rt : Installer.RuntimeInfo) (e : PyError)
    (hargs : args.release_tag = none)
    (hg : Installer._gather_runtime env = .ok rt)
    (hq : Installer._get_latest_release_tag env = .error e) :
    Installer.resolveReleaseTag args.release_tag env =
        (Installer.DEFAULT_RELEASE_TAG, [Installer.fallbackNotice e]) ∧
      Installer.fallbackNotice e ∈ (Installer.main args env).lines ∧
      ("Resolved wheel: " ++ Installer._wheel_url Installer.DEFAULT_RELEASE_TAG rt) ∈
        (Installer.main args env).lines := by
  have hres : Installer.resolveReleaseTag args.release_tag env =
      (Installer.DEFAULT_RELEASE_TAG, [Installer.fallbackNotice e]) := by
    rw [hargs]
    simp [Installer.resolveReleaseTag, hq]
  refine ⟨hres, ?_, ?_⟩
  · cases hex : Installer._wheel_exists env with
    | error e2 => simp [Installer.main, hg, hres, hex]
    | ok b =>
      cases b with
      | false => simp [Installer.main, hg, hres, hex]
      | true =>
        simp only [Installer.main, hg, hres, hex]
        split <;> simp
  · cases hex : Installer._wheel_exists env with
    | error e2 => simp [Installer.main, hg, hres, hex]
    | ok b =>
      cases b with
      | false => simp [Installer.main, hg, hres, hex]
      | true =>
        simp only [Installer.main, hg, hres, hex]
        split <;> simp

/-- Claim C7 (witness): the theorem applied to a concrete environment
whose latest-release query times out. -/
theorem installer_release_tag_fallback_witness :
    Installer.resolveReleaseTag argsNone.release_tag envNetDown =
        (Installer.DEFAULT_RELEASE_TAG, [Installer.fallbackNotice ⟨"URLError", "timed out"⟩]) ∧
      Installer.fallbackNotice ⟨"URLError", "timed out"⟩ ∈ (Installer.main argsNone envNetDown).lines ∧
      ("Resolved wheel: " ++ Installer._wheel_url Installer.DEFAULT_RELEASE_TAG rtExample) ∈
        (Installer.main argsNone envNetDown).lines :=
  installer_release_tag_fallback argsNone envNetDown rtExample ⟨"URLError", "timed out"⟩ rfl rfl rfl

/-- Claim C8: whenever torch imports but the major component of its
CUDA version string is not 12 (this includes a missing or empty CUDA
version), fingerprint gathering raises, and the whole run stops there:
nothing is printed (in particular no URL is constructed), the error
propagates, and no installer subprocess runs. -/
theorem installer_rejects_non_cu12 (args : Installer.Args) (env : Installer.Env)
    (tm : Installer.TorchModule)
    (htm : env.torch = some tm)
    (hmaj : Installer.cudaMajor (tm.cuda.getD "") ≠ "12") :
    ∃ e, Installer._gather_runtime env = .error e ∧
      Installer.main args env = ⟨[], .error e, false⟩ := by
  have hstart : startsWithL (tm.cuda.getD "").data ("12.".data) = false := by
    cases hb : startsWithL (tm.cuda.getD "").data ("12.".data) with
    | false => rfl
    | true =>
      exfalso
      obtain ⟨t, hdata⟩ := startsWithLPrefix ("12.".data) _ hb
      apply hmaj
      have hdata' : (tm.cuda.getD "").data = ['1', '2'] ++ '.' :: t := hdata
      unfold Installer.cudaMajor
      rw [hdata', takeWhileSep (fun c => c != '.') ['1', '2'] '.' t (by decide) (by decide)]
  obtain ⟨e, hg⟩ : ∃ e, Installer._gather_runtime env = .error e := by
    cases hp : Installer._parse_torch_major_minor tm.version with
    | error e => exact ⟨e, by simp [Installer._gather_runtime, htm, hp]⟩
    | ok mm =>
      by_cases hc : tm.cuda.getD "" = ""
      · exact ⟨⟨"RuntimeError", "CUDA runtime not detected in torch (torch.version.cuda is empty)."⟩,
          by simp [Installer._gather_runtime, htm, hp, hc]⟩
      · exact ⟨⟨"RuntimeError", "Unsupported torch CUDA runtime " ++ tm.cuda.getD "" ++ ". This script currently targets flash-attn cu12 wheels."⟩,
          by simp [Installer._gather_runtime, htm, hp, hc, hstart]⟩
  exact ⟨e, hg, by simp [Installer.main, hg]⟩

/-- Claim C8 (witness): the theorem applied to a concrete environment
whose torch reports CUDA 11.8. -/
theorem installer_rejects_non_cu12_witness :
    ∃ e, Installer._gather_runtime envCuda11 = .error e ∧
      Installer.main argsNone envCuda11 = ⟨[], .error e, false⟩ :=
  installer_rejects_non_cu12 argsNone envCuda11 ⟨"2.4.0", some "11.8", true⟩ rfl (by decide)

theorem platform_tag_ok (p m s : String) (h : Installer._platform_tag p m = .ok s) :
    s = "linux_x86_64" ∨ s = "linux_aarch64" := by
  unfold Installer._platform_tag at h
  split at h
  · simp at h
  · split at h
    · injection h with h1
      exact Or.inl h1.symm
    · split at h
      · injection h with h1
        exact Or.inr h1.symm
      · simp at h

theorem gather_ok_shape (env : Installer.Env) (rt : Installer.RuntimeInfo)
    (h : Installer._gather_runtime env = .ok rt) :
    ∃ tm, env.torch = some tm ∧
      Installer._parse_torch_major_minor tm.version = .ok rt.torch_major_minor ∧
      rt.torch_version = tm.version ∧
      rt.torch_cuda = tm.cuda.getD "" ∧
      rt.torch_cuda ≠ "" ∧
      startsWithL rt.torch_cuda.data ("12.".data) = true ∧
      rt.python_tag = "cp" ++ toString env.pyMajor ++ toString env.pyMinor ∧
      (rt.cxx11abi = "TRUE" ∨ rt.cxx11abi = "FALSE") ∧
      Installer._platform_tag env.sysPlatform env.machine = .ok rt.platform_tag := by
  cases htm : env.torch with
  | none => simp [Installer._gather_runtime, htm] at h
  | some tm =>
    cases hp : Installer._parse_torch_major_minor tm.version with
    | error e => simp [Installer._gather_runtime, htm, hp] at h
    | ok mm =>
      simp only [Installer._gather_runtime, htm, hp] at h
      split at h
      · simp at h
      · next hc1 =>
        split at h
        · simp at h
        · next hc2 =>
          cases hpt : Installer._platform_tag env.sysPlatform env.machine with
          | error e => simp only [hpt] at h; simp at h
          | ok pt =>
            simp only [hpt] at h
            injection h with h1
            subst h1
            have hstart : startsWithL (tm.cuda.getD "").data ("12.".data) = true := by
              cases hb : startsWithL (tm.cuda.getD "").data ("12.".data) with
              | false => exact absurd hb hc2
              | true => rfl
            refine ⟨tm, rfl, hp, rfl, rfl, hc1, hstart, rfl, ?_, rfl⟩
            cases tm.cxx11abi with
            | false => exact Or.inr rfl
            | true => exact Or.inl rfl

/-- Claim C10: every fingerprint produced by _gather_runtime has a
TRUE-or-FALSE ABI flag, a non-empty torch_cuda that starts with 12
followed by a dot, a torch_major_minor of the form digits-dot-digits
that is a prefix of torch_version, a python_tag built as cp followed by
the interpreter's major and minor numbers, and a platform_tag that is
linux_x86_64 or linux_aarch64. -/
theorem gather_runtime_invariants (env : Installer.Env) (rt : Installer.RuntimeInfo)
    (h : Installer._gather_runtime env = .ok rt) :
    (rt.cxx11abi = "TRUE" ∨ rt.cxx11abi = "FALSE") ∧
      rt.torch_cuda ≠ "" ∧
      startsWithL rt.torch_cuda.data ("12.".data) = true ∧
      (∃ a b, a ≠ [] ∧ b ≠ [] ∧ (∀ c ∈ a, c.isDigit = true) ∧ (∀ c ∈ b, c.isDigit = true) ∧
        rt.torch_major_minor.data = a ++ '.' :: b) ∧
      (∃ suf, rt.torch_version = rt.torch_major_minor ++ suf) ∧
      rt.python_tag = "cp" ++ toString env.pyMajor ++ toString env.pyMinor ∧
      (rt.platform_tag = "linux_x86_64" ∨ rt.platform_tag = "linux_aarch64") := by
  obtain ⟨tm, _, hp, hver, _, hcne, hstart, hpy, habi, hpt⟩ := gather_ok_shape env rt h
  obtain ⟨a, b, r, hva, ha0, hb0, had, hbd, hs⟩ := parse_ok_shape tm.version rt.torch_major_minor hp
  have hmmdata : rt.torch_major_minor.data = a ++ '.' :: b := by
    rw [hs]
    simp only [strDataAppend, dataMk]
    rw [List.append_assoc, List.singleton_append]
  refine ⟨habi, hcne, hstart, ⟨a, b, ha0, hb0, had, hbd, hmmdata⟩, ⟨String.mk r, ?_⟩, hpy,
    platform_tag_ok env.sysPlatform env.machine rt.platform_tag hpt⟩
  apply stringExt
  rw [hver, hva, strDataAppend, hmmdata, dataMk, List.append_assoc, List.cons_append]

/-- Claim C10 (witness): the theorem applied to a concrete gathered
fingerprint. -/
theorem gather_runtime_invariants_witness :
    (rtExample.cxx11abi = "TRUE" ∨ rtExample.cxx11abi = "FALSE") ∧
      rtExample.torch_cuda ≠ "" ∧
      startsWithL rtExample.torch_cuda.data ("12.".data) = true ∧
      (∃ a b, a ≠ [] ∧ b ≠ [] ∧ (∀ c ∈ a, c.isDigit = true) ∧ (∀ c ∈ b, c.isDigit = true) ∧
        rtExample.torch_major_minor.data = a ++ '.' :: b) ∧
      (∃ suf, rtExample.torch_version = rtExample.torch_major_minor ++ suf) ∧
      rtExample.python_tag = "cp" ++ toString env404.pyMajor ++ toString env404.pyMinor ∧
      (rtExample.platform_tag = "linux_x86_64" ∨ rtExample.platform_tag = "linux_aarch64") :=
  gather_runtime_invariants env404 rtExample rfl
